import Mathlib

/-!
Verification of the WebSocket relay core of the `antigravity-remote-control`
backend (`src/backend/src/server.js`).

The backend file contains two variants of the relay server:
* the "enterprise" variant (lines 1-545): sessions carry metrics and a sliding
  expiry, connections are `ConnectionData` objects aliased between the
  per-socket closure and the role maps;
* the "token" variant (lines 546-1098): role maps hold raw sockets, optional
  JWT-style token check on `auth` (via `verifyToken` from `auth.js`, which is
  not part of the sources and is therefore treated as an opaque parameter,
  exactly as the specification treats `TokenAuthority`), a device registry,
  and an explicit `authenticated` guard.

JavaScript `Map`s are embedded as association lists with insertion-order
preserving `mset` (updating an existing key keeps its position, a new key is
appended, matching `Map.prototype.set`).  JavaScript object aliasing between
the per-connection closure variable `connectionData` and the role maps is
embedded with an explicit heap: role maps store references (`Nat`), the heap
maps references to `ConnectionData` records.  `undefined`-able string fields
are `Option String`; JS truthiness of strings (empty string is falsy) is
`truthy`.
-/

/-- Keys of the session-indexed JS maps.  `message.sessionId` may be
`undefined`, and a JS `Map` can use `undefined` as a key, so keys are
`Option String` with `none` playing the role of `undefined`. -/
abbrev Key := Option String

/-- JS truthiness of an optional string: `undefined` and `""` are falsy. -/
def truthy : Key → Bool
  | some s => s != ""
  | none => false

/-- JS `a || b` for optional strings (used for `deviceId || sessionId`). -/
def jsOrKey (a b : Key) : Key := if truthy a then a else b

/-- JS `a || b` where `a` is an optional string field and `b` a default
string (empty string is falsy, like in JS). -/
def jsOrStr : Option String → String → String
  | some s, d => if s == "" then d else s
  | none, d => d

/-- JS `a || b` where `a` is an optional number field and `b` a default
(`0` is falsy in JS, like `undefined`). -/
def jsOrNat : Option Nat → Nat → Nat
  | some v, d => if v == 0 then d else v
  | none, d => d

section AssocMap

set_option linter.unusedSectionVars false

variable {K : Type} [BEq K] [LawfulBEq K] {α : Type}

/-- `Map.prototype.get`. -/
def mget (m : List (K × α)) (k : K) : Option α :=
  (m.find? (fun p => p.1 == k)).map (·.2)

/-- `Map.prototype.has`. -/
def mhas (m : List (K × α)) (k : K) : Bool :=
  (m.find? (fun p => p.1 == k)).isSome

/-- `Map.prototype.set`: updating an existing key keeps its position in
iteration order, a fresh key is appended at the end. -/
def mset (m : List (K × α)) (k : K) (v : α) : List (K × α) :=
  if mhas m k then m.map (fun p => if p.1 == k then (k, v) else p)
  else m ++ [(k, v)]

/-- `Map.prototype.delete`. -/
def mdel (m : List (K × α)) (k : K) : List (K × α) :=
  m.filter (fun p => !(p.1 == k))

/-- In-place mutation of the object stored under `k` (JS field assignment on
an object aliased from a map); a no-op when the key is absent. -/
def mupdate (m : List (K × α)) (k : K) (f : α → α) : List (K × α) :=
  m.map (fun p => if p.1 == k then (p.1, f p.2) else p)

end AssocMap

/-! ## Data model (`server.js` lines 9-64 and 564-604) -/

/-- Server configuration constants (`CONFIG` of both variants plus
`AUTH_CONFIG.sessionTimeout` used by the token variant). -/
structure Config where
  testMode : Bool
  sessionExpiry : Nat
  heartbeatInterval : Nat
  heartbeatTimeout : Nat
  rateLimitWindow : Nat
  rateLimitMax : Nat
  maxSessionsPerIP : Nat
  sessionTimeout : Nat
deriving DecidableEq, Repr

/-- `SessionData` of the enterprise variant (lines 52-64). -/
structure SessionData where
  id : Key
  createdAt : Nat
  expiresAt : Nat
  status : String
  creatorIP : String
  agentConnected : Bool
  mobileConnected : Bool
  totalFrames : Nat
  totalBytes : Nat
deriving DecidableEq, Repr

/-- `new SessionData(id, creatorIP)` at time `now` (lines 53-63). -/
def mkSessionData (id : Key) (creatorIP : String) (now : Nat) (cfg : Config) :
    SessionData :=
  { id := id, createdAt := now, expiresAt := now + cfg.sessionExpiry,
    status := "pending", creatorIP := creatorIP,
    agentConnected := false, mobileConnected := false,
    totalFrames := 0, totalBytes := 0 }

/-- `ConnectionData` of the enterprise variant (lines 37-49).  The JS object
is aliased between the closure variable `connectionData` and the role maps,
so the embedding stores these records in a heap indexed by `Nat` references;
`socket` is the transport handle, also a `Nat` identifier. -/
structure ConnectionData where
  socket : Nat
  clientType : Option String
  sessionId : Key
  connectedAt : Nat
  lastHeartbeat : Nat
  latency : Int
  framesSent : Nat
  bytesTransferred : Nat
  state : String
deriving DecidableEq, Repr

/-- `new ConnectionData(socket, clientType, sessionId)` at time `now`. -/
def mkConnectionData (sock : Nat) (clientType : Option String) (sessionId : Key)
    (now : Nat) : ConnectionData :=
  { socket := sock, clientType := clientType, sessionId := sessionId,
    connectedAt := now, lastHeartbeat := now, latency := 0,
    framesSent := 0, bytesTransferred := 0, state := "connected" }

/-- `deviceInfo` object optionally carried by a token-variant `auth` frame. -/
structure DeviceInfo where
  deviceId : Key
  name : Option String
  hostname : Option String
  ip : Option String
  os : Option String
  antigravityStatus : Option String
  capabilities : Option (List String)
deriving DecidableEq, Repr

/-- The top-level fields of a parsed inbound JSON frame that the two message
handlers inspect.  Anything else inside the frame is opaque payload carried
by the raw bytes. -/
structure Msg where
  type : String
  sessionId : Key
  clientType : Option String
  token : Option String
  timestamp : Option Nat
  deviceInfo : Option DeviceInfo
  deviceId : Key
  thumbnail : Option String
  antigravityStatus : Option String
  systemInfo : Option String
deriving DecidableEq, Repr

/-- An inbound raw transport message: the byte sequence together with the
outcome of `JSON.parse` on it (`none` when parsing throws). -/
structure RawMsg where
  bytes : List Nat
  parsed : Option Msg
deriving DecidableEq, Repr

/-- Device entry of the token variant's device registry (lines 587-604). -/
structure Device where
  id : Key
  name : String
  hostname : String
  ip : String
  os : String
  antigravityStatus : String
  lastHeartbeat : Nat
  status : String
  socket : Nat
  sessionId : Key
  capabilities : List String
  thumbnail : Option String
  systemInfo : Option String
deriving DecidableEq, Repr

/-- Projection of a `Device` pushed by `getOnlineDevices` (lines 622-633). -/
structure DevicePub where
  id : Key
  name : String
  hostname : String
  ip : String
  os : String
  status : String
  antigravityStatus : String
  capabilities : List String
  thumbnail : Option String
  sessionId : Key
deriving DecidableEq, Repr

/-- Token-variant session object (lines 761-768 and 886-891; only the fields
the websocket handler reads are modelled). `expiresAt` is optional because
the handler guards it with a truthiness check (line 903). -/
structure TokSession where
  id : Key
  createdAt : Nat
  status : String
  expiresAt : Option Nat
deriving DecidableEq, Repr

/-- Result of `verifyToken` from `auth.js` (not part of the sources; the
specification treats the token authority as opaque `verify(token) ->
{sessionId, role} | invalid`, so the embedding passes the verifier as an
opaque function into the handler). -/
structure Decoded where
  sessionId : Key
  clientType : Option String
deriving DecidableEq, Repr

/-- Control replies constructed by the server (`socket.send(JSON.stringify(...))`
sites).  Relayed client payloads are never re-serialized and appear as
`Effect.sendRaw` instead. -/
inductive OutMsg where
  | errorMsg (message : String)
  | authSuccessEnt (sessionId : Key) (clientType : Option String)
      (serverVersion : String) (heartbeatInterval sessionExpiresAt : Nat)
  | authSuccessTok (sessionId : Key) (clientType : Option String)
  | peerConnected (peerType : Option String) (timestamp : Option Nat)
  | peerDisconnected (peerType : Option String) (timestamp : Option Nat)
  | devicesList (ds : List DevicePub)
  | deviceConnected (deviceId : Key) (name : String)
  | mobileConnected (sessionId : Key)
deriving DecidableEq, Repr

/-- Outbound transport effects of one handler invocation, in order. -/
inductive Effect where
  | sendCtl (sock : Nat) (m : OutMsg)
  | sendRaw (sock : Nat) (bytes : List Nat)
  | sendReser (sock : Nat) (m : Msg)
  | closeSock (sock : Nat)
deriving DecidableEq, Repr

/-- `true` when no effect in the list closes a socket. -/
def noClose (es : List Effect) : Bool :=
  es.all fun e => match e with
    | .closeSock _ => false
    | _ => true

/-- `true` on the `auth_success` acknowledgement of either variant. -/
def isAuthSuccess : Effect → Bool
  | .sendCtl _ (.authSuccessEnt _ _ _ _ _) => true
  | .sendCtl _ (.authSuccessTok _ _) => true
  | _ => false

/-! ## Enterprise variant (`server.js` lines 28-34 and 348-521) -/

/-- Global mutable state of the enterprise variant relevant to the relay:
`sessions`, `connections.agents`, `connections.mobiles` (lines 28-32), a heap
realizing JS object identity of `ConnectionData` values, the allocator for
fresh references, and the set of sockets whose `readyState === 1`. -/
structure EntState where
  sessions : List (Key × SessionData)
  agents : List (Key × Nat)
  mobiles : List (Key × Nat)
  heap : List (Nat × ConnectionData)
  nextRef : Nat
  openSocks : List Nat
deriving DecidableEq, Repr

/-- Per-socket closure variables of the enterprise handler
(lines 350-352): `clientType`, `sessionId`, `connectionData`. -/
structure EntLocal where
  clientType : Option String
  sessionId : Key
  connectionData : Option Nat
deriving DecidableEq, Repr

/-- Target/paired lookup common to the enterprise relay path (lines 460-462),
the auth pairing notification (lines 444-446) and the close notification
(lines 503-505): an `'agent'` sender pairs with `connections.mobiles`, any
other clientType with `connections.agents`. -/
def pairedLookup (st : EntState) (clientType : Option String) (sessionId : Key) :
    Option Nat :=
  if clientType == some "agent" then mget st.mobiles sessionId
  else mget st.agents sessionId

/-- Bandwidth tracking at the top of the message handler (lines 371-375):
`connectionData.bytesTransferred += messageSize` if a connection object is
already bound (a JS object mutation, visible through the role maps). -/
def byteBump (st : EntState) (loc : EntLocal) (n : Nat) : EntState :=
  match loc.connectionData with
  | some ref =>
      let f := fun cd : ConnectionData =>
        { cd with bytesTransferred := cd.bytesTransferred + n }
      { st with heap := mupdate st.heap ref f }
  | none => st

/-- `pong` branch (lines 380-386): refresh `lastHeartbeat` and estimate
latency from the echoed timestamp (`message.timestamp || Date.now()`). -/
def entPong (st : EntState) (loc : EntLocal) (now : Nat) (message : Msg) :
    EntState × EntLocal × List Effect :=
  let st :=
    match loc.connectionData with
    | some ref =>
        let f := fun cd : ConnectionData =>
          { cd with lastHeartbeat := now,
                    latency := (now : Int) - (jsOrNat message.timestamp now : Int) }
        { st with heap := mupdate st.heap ref f }
    | none => st
  (st, loc, [])

/-- `auth` branch of the enterprise handler (lines 389-456): bind the claimed
session and clientType, validate or (test mode) create the session, reject
expired sessions, allocate a `ConnectionData`, register it in the role map
(replacing any previous entry for the key), slide the session expiry, reply
`auth_success`, and notify an already-present peer.  Session-object field
assignments are collected and written back once, which is observably equal
because nothing reads the session between the mutations. -/
def entAuth (cfg : Config) (st : EntState) (loc : EntLocal) (sock : Nat)
    (clientIP : String) (now : Nat) (message : Msg) :
    EntState × EntLocal × List Effect :=
  let loc := { loc with sessionId := message.sessionId,
                        clientType := message.clientType }
  -- Validate or create session (lines 394-404)
  if !(mhas st.sessions loc.sessionId) && !cfg.testMode then
    (st, loc, [.sendCtl sock (.errorMsg "Invalid session")])
  else
    let st :=
      if !(mhas st.sessions loc.sessionId) && cfg.testMode then
        let fresh := mkSessionData loc.sessionId clientIP now cfg
        { st with sessions := mset st.sessions loc.sessionId fresh }
      else st
    match mget st.sessions loc.sessionId with
    | none => (st, loc, [])  -- unreachable: the session exists here
    | some session =>
      -- Check session expiry (lines 407-414)
      if now > session.expiresAt then
        (st, loc, [.sendCtl sock (.errorMsg "Session expired")])
      else
        -- Create connection data (line 417)
        let cref := st.nextRef
        let st := { st with
          heap := (cref, mkConnectionData sock loc.clientType loc.sessionId now)
            :: st.heap,
          nextRef := cref + 1 }
        let loc := { loc with connectionData := some cref }
        -- Register connection (lines 420-428)
        let session :=
          if loc.clientType == some "agent" then
            { session with agentConnected := true }
          else if loc.clientType == some "mobile" then
            { session with mobileConnected := true }
          else session
        let st :=
          if loc.clientType == some "agent" then
            { st with agents := mset st.agents loc.sessionId cref }
          else if loc.clientType == some "mobile" then
            { st with mobiles := mset st.mobiles loc.sessionId cref }
          else st
        -- Refresh session expiry on connect (line 431)
        let session := { session with expiresAt := now + cfg.sessionExpiry }
        let st := { st with sessions := mset st.sessions loc.sessionId session }
        -- Send confirmation (lines 434-441)
        let ack := Effect.sendCtl sock (.authSuccessEnt loc.sessionId
          loc.clientType "2.0.0-enterprise" cfg.heartbeatInterval
          session.expiresAt)
        -- Notify paired client (lines 444-454)
        let peerEffs :=
          match pairedLookup st loc.clientType loc.sessionId with
          | some pref =>
            match mget st.heap pref with
            | some pcd =>
              if st.openSocks.contains pcd.socket then
                [Effect.sendCtl pcd.socket (.peerConnected loc.clientType (some now))]
              else []
            | none => []
          | none => []
        (st, loc, ack :: peerEffs)

/-- Relay branch of the enterprise handler (lines 459-479): look up the
counterpart for the sender's key, and if its socket is open, bump frame
statistics for `type === 'frame'` and forward the raw bytes verbatim. -/
def entRelay (st : EntState) (loc : EntLocal) (raw : RawMsg) (message : Msg) :
    EntState × EntLocal × List Effect :=
  if truthy loc.sessionId && truthy loc.clientType then
    match pairedLookup st loc.clientType loc.sessionId with
    | some tref =>
      match mget st.heap tref with
      | some tcd =>
        if st.openSocks.contains tcd.socket then
          -- Track frame statistics (lines 466-474)
          let st :=
            match mget st.sessions loc.sessionId with
            | some session =>
              if message.type == "frame" then
                let session' :=
                  { session with totalFrames := session.totalFrames + 1,
                                 totalBytes := session.totalBytes + raw.bytes.length }
                let st := { st with sessions := mset st.sessions loc.sessionId session' }
                match loc.connectionData with
                | some cref =>
                    let f := fun cd : ConnectionData =>
                      { cd with framesSent := cd.framesSent + 1, state := "streaming" }
                    { st with heap := mupdate st.heap cref f }
                | none => st
              else st
            | none => st
          -- Forward raw message for efficiency (line 477)
          (st, loc, [.sendRaw tcd.socket raw.bytes])
        else (st, loc, [])
      | none => (st, loc, [])
    | none => (st, loc, [])
  else (st, loc, [])

/-- The enterprise `socket.on('message', ...)` handler (lines 369-484).
A frame whose bytes do not parse as JSON makes `JSON.parse` throw; the
`catch` only logs, so the already-performed bandwidth bump is the only state
change in that case. -/
def entHandle (cfg : Config) (st : EntState) (loc : EntLocal) (sock : Nat)
    (clientIP : String) (now : Nat) (raw : RawMsg) :
    EntState × EntLocal × List Effect :=
  let st := byteBump st loc raw.bytes.length
  match raw.parsed with
  | none => (st, loc, [])
  | some message =>
    if message.type == "pong" then entPong st loc now message
    else if message.type == "auth" then entAuth cfg st loc sock clientIP now message
    else entRelay st loc raw message

/-- The enterprise `socket.on('close', ...)` handler (lines 486-515): delete
the role map entry for the closure's `(sessionId, clientType)` key (an
unconditional `Map.delete`), clear the session's connected flag, and notify
the paired client. -/
def entClose (st : EntState) (loc : EntLocal) (now : Nat) :
    EntState × List Effect :=
  if truthy loc.sessionId && truthy loc.clientType then
    let session? := mget st.sessions loc.sessionId
    let st :=
      if loc.clientType == some "agent" then
        let st := { st with agents := mdel st.agents loc.sessionId }
        match session? with
        | some s =>
          let s' := { s with agentConnected := false }
          { st with sessions := mset st.sessions loc.sessionId s' }
        | none => st
      else
        let st := { st with mobiles := mdel st.mobiles loc.sessionId }
        match session? with
        | some s =>
          let s' := { s with mobileConnected := false }
          { st with sessions := mset st.sessions loc.sessionId s' }
        | none => st
    let effs :=
      match pairedLookup st loc.clientType loc.sessionId with
      | some pref =>
        match mget st.heap pref with
        | some pcd =>
          if st.openSocks.contains pcd.socket then
            [Effect.sendCtl pcd.socket (.peerDisconnected loc.clientType (some now))]
          else []
        | none => []
      | none => []
    (st, effs)
  else (st, [])

/-- `checkRateLimit` of the enterprise variant (lines 69-80), acting on the
`rateLimits` map entry for one IP: reset the window if absent or elapsed,
increment, and allow iff the count stays within `rateLimitMax`. -/
structure RateLimitEntry where
  count : Nat
  resetTime : Nat
deriving DecidableEq, Repr

/-- One `checkRateLimit(ip)` call at time `now`: returns the boolean and the
updated `rateLimits` map. -/
def checkRateLimit (cfg : Config) (rateLimits : List (String × RateLimitEntry))
    (ip : String) (now : Nat) : Bool × List (String × RateLimitEntry) :=
  let limit :=
    match mget rateLimits ip with
    | none => { count := 0, resetTime := now + cfg.rateLimitWindow : RateLimitEntry }
    | some l =>
      if now > l.resetTime then
        { count := 0, resetTime := now + cfg.rateLimitWindow }
      else l
  let limit := { limit with count := limit.count + 1 }
  (decide (limit.count ≤ cfg.rateLimitMax), mset rateLimits ip limit)

/-- A sequence of `checkRateLimit(ip)` calls at the given times, returning
the outcomes in order and the final map. -/
def runRate (cfg : Config) (ip : String) :
    List (String × RateLimitEntry) → List Nat →
    List Bool × List (String × RateLimitEntry)
  | rl, [] => ([], rl)
  | rl, t :: ts =>
    let r := checkRateLimit cfg rl ip t
    let rest := runRate cfg ip r.2 ts
    (r.1 :: rest.1, rest.2)

/-! ## Token variant (`server.js` lines 574-649 and 833-1078) -/

/-- Heartbeat timeout of the device registry (line 585). -/
def DEVICE_TIMEOUT : Nat := 30000

/-- Global mutable state of the token variant: `sessions`, `connections`
(role maps holding raw sockets, lines 574-578), the device registry
(line 583), and the set of sockets with `readyState === 1`. -/
structure TokState where
  sessions : List (Key × TokSession)
  agents : List (Key × Nat)
  mobiles : List (Key × Nat)
  devices : List (Key × Device)
  openSocks : List Nat
deriving DecidableEq, Repr

/-- Per-socket closure variables of the token handler (lines 835-837). -/
structure TokLocal where
  clientType : Option String
  sessionId : Key
  authenticated : Bool
deriving DecidableEq, Repr

/-- Target/paired lookup of the token variant (lines 940-942, 1021-1023,
1034-1036, 1062-1064). -/
def pairedLookupTok (st : TokState) (clientType : Option String)
    (sessionId : Key) : Option Nat :=
  if clientType == some "agent" then mget st.mobiles sessionId
  else mget st.agents sessionId

/-- `registerDevice(deviceId, info, socket)` (lines 587-604) at time `now`.
The defaults mirror the JS `||` fallbacks; when both `deviceInfo.deviceId`
and `sessionId` are absent the original would throw a `TypeError` on
`deviceId.slice` inside the name default (caught by the handler's `catch`);
that unreachable corner is embedded as slicing the empty string. -/
def mkDevice (deviceId : Key) (info : DeviceInfo) (sessionId : Key)
    (sock : Nat) (now : Nat) : Device :=
  { id := deviceId
    name := jsOrStr info.name ("Device-" ++ (deviceId.getD "").take 8)
    hostname := jsOrStr info.hostname "unknown"
    ip := jsOrStr info.ip "unknown"
    os := jsOrStr info.os "unknown"
    antigravityStatus := jsOrStr info.antigravityStatus "unknown"
    lastHeartbeat := now
    status := "online"
    socket := sock
    sessionId := sessionId
    capabilities := info.capabilities.getD ["screen", "input", "command"]
    thumbnail := none
    systemInfo := none }

/-- `updateDeviceHeartbeat(deviceId, data)` (lines 606-615): refresh the
device if known (truthiness-guarded optional fields), silently drop
otherwise. -/
def updateDeviceHeartbeat (devices : List (Key × Device)) (deviceId : Key)
    (thumbnail antigravityStatus systemInfo : Option String) (now : Nat) :
    List (Key × Device) :=
  match mget devices deviceId with
  | none => devices
  | some device =>
    let device := { device with lastHeartbeat := now, status := "online" }
    let device :=
      if truthy thumbnail then { device with thumbnail := thumbnail } else device
    let device :=
      if truthy antigravityStatus then
        { device with antigravityStatus := antigravityStatus.getD "" }
      else device
    let device :=
      if truthy systemInfo then { device with systemInfo := systemInfo } else device
    mset devices deviceId device

/-- The projection pushed by `getOnlineDevices` (lines 622-633). -/
def devicePub (d : Device) : DevicePub :=
  { id := d.id, name := d.name, hostname := d.hostname, ip := d.ip,
    os := d.os, status := "online", antigravityStatus := d.antigravityStatus,
    capabilities := d.capabilities, thumbnail := d.thumbnail,
    sessionId := d.sessionId }

/-- `getOnlineDevices()` (lines 617-639) at time `now`: collects devices
whose last heartbeat is within `DEVICE_TIMEOUT` and, as a side effect, marks
the stale ones `offline` in the registry. -/
def getOnlineDevices (devices : List (Key × Device)) (now : Nat) :
    List DevicePub × List (Key × Device) :=
  match devices with
  | [] => ([], [])
  | (k, d) :: rest =>
    let r := getOnlineDevices rest now
    if now - d.lastHeartbeat < DEVICE_TIMEOUT then
      (devicePub d :: r.1, (k, d) :: r.2)
    else
      (r.1, (k, { d with status := "offline" }) :: r.2)

/-- The token-variant expiry guard (line 903):
`session.expiresAt && Date.now() > session.expiresAt` with JS truthiness
(`undefined` and `0` are falsy). -/
def tokExpired (expiresAt : Option Nat) (now : Nat) : Bool :=
  match expiresAt with
  | some v => decide (v ≠ 0) && decide (now > v)
  | none => false

/-- Session resolution and registration part of the token `auth` branch
(lines 882-950), entered once the optional token check has passed: validate
or (test mode) create the session, reject and delete an expired session,
set `authenticated`, register the socket in the role map, optionally
register a device (agents carrying `deviceInfo`), acknowledge, and notify
an already-present peer. -/
def tokAuthSession (cfg : Config) (st : TokState) (loc : TokLocal)
    (sock : Nat) (now : Nat) (message : Msg) :
    TokState × TokLocal × List Effect :=
  -- Validate or create session (lines 883-899)
  if !(mhas st.sessions loc.sessionId) && !cfg.testMode then
    (st, loc, [.sendCtl sock (.errorMsg "Invalid session")])
  else
    let st :=
      if !(mhas st.sessions loc.sessionId) && cfg.testMode then
        let fresh : TokSession :=
          { id := loc.sessionId, createdAt := now, status := "active",
            expiresAt := some (now + cfg.sessionTimeout) }
        { st with sessions := mset st.sessions loc.sessionId fresh }
      else st
    match mget st.sessions loc.sessionId with
    | none => (st, loc, [])  -- unreachable: the session exists here
    | some session =>
      -- Check session expiry (lines 902-910)
      if tokExpired session.expiresAt now then
        ({ st with sessions := mdel st.sessions loc.sessionId }, loc,
          [.sendCtl sock (.errorMsg "Session expired")])
      else
        -- Register connection (lines 913-930)
        let loc := { loc with authenticated := true }
        let st :=
          if loc.clientType == some "agent" then
            let st := { st with agents := mset st.agents loc.sessionId sock }
            match message.deviceInfo with
            | some di =>
              let deviceId := jsOrKey di.deviceId loc.sessionId
              let dev := mkDevice deviceId di loc.sessionId sock now
              { st with devices := mset st.devices deviceId dev }
            | none => st
          else if loc.clientType == some "mobile" then
            { st with mobiles := mset st.mobiles loc.sessionId sock }
          else st
        -- Send confirmation (lines 933-937)
        let ack := Effect.sendCtl sock
          (.authSuccessTok loc.sessionId loc.clientType)
        -- Notify paired client (lines 940-949)
        let peerEffs :=
          match pairedLookupTok st loc.clientType loc.sessionId with
          | some psock =>
            if st.openSocks.contains psock then
              [Effect.sendCtl psock (.peerConnected loc.clientType none)]
            else []
          | none => []
        (st, loc, ack :: peerEffs)

/-- `auth` branch of the token handler (lines 857-951).  `verify` is
`verifyToken` from `auth.js`, which is not among the sources; the
specification scopes it out as the opaque `TokenAuthority`, so it is an
opaque parameter here.  A present (truthy) token must verify and its decoded
`sessionId`/`clientType` must equal the claimed ones (lines 863-880). -/
def tokAuth (cfg : Config) (verify : String → Option Decoded) (st : TokState)
    (loc : TokLocal) (sock : Nat) (now : Nat) (message : Msg) :
    TokState × TokLocal × List Effect :=
  let loc := { loc with sessionId := message.sessionId,
                        clientType := message.clientType }
  match message.token with
  | some tok =>
    if tok == "" then tokAuthSession cfg st loc sock now message
    else
      match verify tok with
      | none => (st, loc, [.sendCtl sock (.errorMsg "Invalid or expired token")])
      | some decoded =>
        if !(decoded.sessionId == loc.sessionId
             && decoded.clientType == loc.clientType) then
          (st, loc, [.sendCtl sock (.errorMsg "Token mismatch")])
        else tokAuthSession cfg st loc sock now message
  | none => tokAuthSession cfg st loc sock now message

/-- The token `socket.on('message', ...)` handler (lines 852-1047).
`validateInput` comes from `auth.js` (not among the sources; the
specification only demands a structural schema check on mobile-origin
frames), so it is an opaque parameter. -/
def tokHandle (cfg : Config) (verify : String → Option Decoded)
    (validateInput : Msg → Bool) (st : TokState) (loc : TokLocal)
    (sock : Nat) (now : Nat) (raw : RawMsg) :
    TokState × TokLocal × List Effect :=
  match raw.parsed with
  | none => (st, loc, [])
  | some message =>
    -- Handle authentication (lines 857-951)
    if message.type == "auth" then
      tokAuth cfg verify st loc sock now message
    -- Require authentication for other messages (lines 954-960)
    else if !loc.authenticated then
      (st, loc, [.sendCtl sock (.errorMsg "Not authenticated")])
    -- Validate input for mobile -> agent messages (lines 963-969)
    else if loc.clientType == some "mobile" && !(validateInput message) then
      (st, loc, [])
    -- Agent heartbeat (lines 972-981)
    else if message.type == "heartbeat" && loc.clientType == some "agent" then
      let deviceId := jsOrKey message.deviceId loc.sessionId
      let devices := updateDeviceHeartbeat st.devices deviceId
        message.thumbnail message.antigravityStatus message.systemInfo now
      ({ st with devices := devices }, loc, [])
    -- Mobile requesting device list (lines 983-990)
    else if message.type == "get_devices" && loc.clientType == some "mobile" then
      let r := getOnlineDevices st.devices now
      ({ st with devices := r.2 }, loc, [.sendCtl sock (.devicesList r.1)])
    -- Mobile connecting to a specific device (lines 992-1016)
    else if message.type == "connect_device" && loc.clientType == some "mobile" then
      match mget st.devices message.deviceId with
      | some dev =>
        if st.openSocks.contains dev.socket then
          ({ st with agents := mset st.agents loc.sessionId dev.socket }, loc,
            [.sendCtl sock (.deviceConnected message.deviceId dev.name),
             .sendCtl dev.socket (.mobileConnected loc.sessionId)])
        else (st, loc, [.sendCtl sock (.errorMsg "Device not available")])
      | none => (st, loc, [.sendCtl sock (.errorMsg "Device not available")])
    -- WebRTC signaling passthrough, re-serialized (lines 1019-1030)
    else if message.type == "webrtc_signal" then
      match pairedLookupTok st loc.clientType loc.sessionId with
      | some tsock =>
        if st.openSocks.contains tsock then (st, loc, [.sendReser tsock message])
        else (st, loc, [])
      | none => (st, loc, [])
    -- Relay messages between paired clients (lines 1033-1042)
    else if truthy loc.sessionId && truthy loc.clientType then
      match pairedLookupTok st loc.clientType loc.sessionId with
      | some tsock =>
        if st.openSocks.contains tsock then (st, loc, [.sendRaw tsock raw.bytes])
        else (st, loc, [])
      | none => (st, loc, [])
    else (st, loc, [])

/-- The token `socket.on('close', ...)` handler (lines 1049-1073): delete the
role map entry for the closure's key (an unconditional `Map.delete`) and
notify the paired client.  (`releaseConnection(clientIP)` only adjusts the
per-IP connection quota counter inside `auth.js` and is not modelled.) -/
def tokClose (st : TokState) (loc : TokLocal) : TokState × List Effect :=
  if truthy loc.sessionId && truthy loc.clientType then
    let st :=
      if loc.clientType == some "agent" then
        { st with agents := mdel st.agents loc.sessionId }
      else
        { st with mobiles := mdel st.mobiles loc.sessionId }
    let effs :=
      match pairedLookupTok st loc.clientType loc.sessionId with
      | some psock =>
        if st.openSocks.contains psock then
          [Effect.sendCtl psock (.peerDisconnected loc.clientType none)]
        else []
      | none => []
    (st, effs)
  else (st, [])

/-! ## Concrete fixtures used by witnesses and counterexamples -/

/-- A small configuration (strict mode) for concrete evaluations. -/
def cfg0 : Config :=
  { testMode := false, sessionExpiry := 100, heartbeatInterval := 10,
    heartbeatTimeout := 30, rateLimitWindow := 50, rateLimitMax := 3,
    maxSessionsPerIP := 5, sessionTimeout := 100 }

/-- A frame with every optional field absent and an opaque payload type. -/
def msg0 : Msg :=
  { type := "x", sessionId := none, clientType := none, token := none,
    timestamp := none, deviceInfo := none, deviceId := none,
    thumbnail := none, antigravityStatus := none, systemInfo := none }

/-- An `auth` frame claiming `sid`/`ct`, with no token. -/
def authMsg (sid : Key) (ct : Option String) : Msg :=
  { msg0 with type := "auth", sessionId := sid, clientType := ct }

/-- A session for id `"S"` created at time `0` under `cfg0`. -/
def sess0 : SessionData := mkSessionData (some "S") "ip" 0 cfg0

/-- Enterprise state: session `"S"` exists, an agent connection (heap
reference `7`, socket `70`) is registered for it, sockets `70` and `99`
are open. -/
def st0 : EntState :=
  { sessions := [(some "S", sess0)], agents := [(some "S", 7)], mobiles := [],
    heap := [(7, mkConnectionData 70 (some "agent") (some "S") 0)],
    nextRef := 8, openSocks := [70, 99] }

/-- Enterprise state: session `"S"` exists, a mobile connection (heap
reference `3`, socket `30`) is registered for it, sockets `30` and `99`
are open. -/
def st0m : EntState :=
  { sessions := [(some "S", sess0)], agents := [], mobiles := [(some "S", 3)],
    heap := [(3, mkConnectionData 30 (some "mobile") (some "S") 0)],
    nextRef := 8, openSocks := [30, 99] }

/-- Token-variant state: session `"S"` exists and nothing is connected. -/
def tst0 : TokState :=
  { sessions := [(some "S",
      { id := some "S", createdAt := 0, status := "pending",
        expiresAt := some 100 })],
    agents := [], mobiles := [], devices := [], openSocks := [] }

/-- A token verifier accepting exactly the token `"tk"` for
`("S", "agent")`; stands in for an arbitrary `TokenAuthority` in witnesses. -/
def verify0 : String → Option Decoded :=
  fun t => if t == "tk" then some ⟨some "S", some "agent"⟩ else none

/-- Token-variant state for the relay witness: an agent socket `5` is
registered for session `"S"` and open. -/
def tstR : TokState :=
  { sessions := tst0.sessions, agents := [(some "S", 5)], mobiles := [],
    devices := [], openSocks := [5] }

/-- Enterprise state with an expired session `"S"` (`expiresAt = 10`). -/
def stExp : EntState :=
  { sessions := [(some "S", { sess0 with expiresAt := 10 })], agents := [],
    mobiles := [], heap := [], nextRef := 0, openSocks := [99] }

/-- Token-variant state with an expired session `"S"` (`expiresAt = 10`). -/
def tstExp : TokState :=
  { sessions := [(some "S",
      { id := some "S", createdAt := 0, status := "pending",
        expiresAt := some 10 })],
    agents := [], mobiles := [], devices := [], openSocks := [] }

/-- Token-variant state with a registered mobile socket `5` for `"S"`. -/
def tstM : TokState :=
  { sessions := tst0.sessions, agents := [], mobiles := [(some "S", 5)],
    devices := [], openSocks := [] }

/-! ## Association map lemmas -/

section AssocMapLemmas

set_option linter.unusedSectionVars false

variable {K : Type} [BEq K] [LawfulBEq K] {α : Type}

theorem mget_nil (k : K) : mget ([] : List (K × α)) k = none := rfl

theorem mget_cons (p : K × α) (m : List (K × α)) (k : K) :
    mget (p :: m) k = if p.1 == k then some p.2 else mget m k := by
  by_cases h : p.1 == k <;> simp [mget, List.find?, h]

theorem mget_append (m₁ m₂ : List (K × α)) (k : K) :
    mget (m₁ ++ m₂) k = ((mget m₁ k).or (mget m₂ k)) := by
  induction m₁ with
  | nil => simp [mget]
  | cons p m ih =>
    by_cases h : p.1 == k <;> simp [mget_cons, h, ih]

theorem mget_mupdate_self (m : List (K × α)) (k : K) (f : α → α) :
    mget (mupdate m k f) k = (mget m k).map f := by
  induction m with
  | nil => rfl
  | cons p m ih =>
    by_cases hp : p.1 == k
    · simp [mupdate, mget_cons, hp]
    · simp only [mupdate, List.map_cons, if_neg hp] at *
      rw [mget_cons, if_neg hp, mget_cons, if_neg hp]
      exact ih

theorem mget_mupdate_ne (m : List (K × α)) (k k' : K) (f : α → α)
    (h : ¬ k = k') :
    mget (mupdate m k f) k' = mget m k' := by
  induction m with
  | nil => rfl
  | cons p m ih =>
    by_cases hp : p.1 == k
    · have hpk : p.1 = k := by simpa using hp
      have hp' : ¬ (p.1 == k') = true := by simp [hpk, h]
      simp only [mupdate, List.map_cons, if_pos hp] at *
      rw [mget_cons, mget_cons, if_neg hp']
      simp only [if_neg hp']
      exact ih
    · simp only [mupdate, List.map_cons, if_neg hp] at *
      rw [mget_cons, mget_cons]
      by_cases hp' : p.1 == k'
      · simp [hp']
      · simp only [if_neg hp']
        exact ih

/-- The in-place branch of `mset` behaves like `mupdate` with a constant. -/
theorem mset_eq_of_mhas (m : List (K × α)) (k : K) (v : α)
    (h : mhas m k = true) :
    mset m k v = mupdate m k (fun _ => v) := by
  rw [mset, if_pos h]
  unfold mupdate
  apply List.map_congr_left
  intro p _
  by_cases hp : p.1 == k
  · have : p.1 = k := by simpa using hp
    simp [hp, this]
  · simp [hp]

theorem mhas_iff (m : List (K × α)) (k : K) :
    mhas m k = true ↔ (mget m k).isSome = true := by
  simp [mhas, mget]

theorem mget_eq_none_of_not_mhas (m : List (K × α)) (k : K)
    (h : ¬ mhas m k = true) : mget m k = none := by
  cases hg : mget m k with
  | none => rfl
  | some v => exact absurd ((mhas_iff m k).2 (by simp [hg])) h

theorem mget_mset_self (m : List (K × α)) (k : K) (v : α) :
    mget (mset m k v) k = some v := by
  by_cases h : mhas m k
  · rw [mset_eq_of_mhas m k v h, mget_mupdate_self]
    rcases Option.isSome_iff_exists.1 ((mhas_iff m k).1 h) with ⟨w, hw⟩
    simp [hw]
  · rw [mset, if_neg h, mget_append, mget_eq_none_of_not_mhas m k h]
    simp [mget_cons]

theorem mget_mset_ne (m : List (K × α)) (k k' : K) (v : α) (h : ¬ k = k') :
    mget (mset m k v) k' = mget m k' := by
  by_cases hh : mhas m k
  · rw [mset_eq_of_mhas m k v hh, mget_mupdate_ne m k k' _ h]
  · rw [mset, if_neg hh, mget_append]
    have h1 : mget [(k, v)] k' = none := by
      rw [mget_cons, if_neg (by simp [h])]
      rfl
    rw [h1]
    cases mget m k' <;> rfl

theorem mget_mdel_self (m : List (K × α)) (k : K) :
    mget (mdel m k) k = none := by
  induction m with
  | nil => rfl
  | cons p m ih =>
    cases hp : (p.1 == k) with
    | true => simpa [mdel, List.filter_cons, hp] using ih
    | false =>
      have hstep : mdel (p :: m) k = p :: mdel m k := by
        rw [mdel, List.filter_cons, hp]
        simp [mdel]
      rw [hstep, mget_cons, if_neg (by rw [hp]; simp)]
      exact ih

theorem mget_mdel_ne (m : List (K × α)) (k k' : K) (h : ¬ k = k') :
    mget (mdel m k) k' = mget m k' := by
  induction m with
  | nil => rfl
  | cons p m ih =>
    cases hp : (p.1 == k) with
    | true =>
      have hpk : p.1 = k := by simpa using hp
      have hp' : ¬ (p.1 == k') = true := by simp [hpk, h]
      rw [mdel, List.filter_cons] at *
      simp only [hp, Bool.not_true, if_neg] at *
      rw [mget_cons, if_neg hp']
      exact ih
    | false =>
      rw [mdel, List.filter_cons] at *
      simp only [hp, Bool.not_false, if_pos] at *
      rw [mget_cons, mget_cons]
      by_cases hp' : (p.1 == k') = true
      · simp [hp']
      · simp only [if_neg hp']
        exact ih

end AssocMapLemmas

/-! ## Claims -/

/-- C10: for every inbound frame whose bytes are not valid JSON, the message
handler catches the parse error: no effect is emitted (in particular the
connection is not closed), the local state is untouched, and the sessions
map and both role registries are unchanged; only the receiving connection's
`bytesTransferred` counter in the heap may change. -/
theorem parse_failure_isolated (cfg : Config) (st : EntState) (loc : EntLocal)
    (sock : Nat) (clientIP : String) (now : Nat) (raw : RawMsg)
    (hp : raw.parsed = none) :
    (entHandle cfg st loc sock clientIP now raw).2.2 = [] ∧
    (entHandle cfg st loc sock clientIP now raw).2.1 = loc ∧
    (entHandle cfg st loc sock clientIP now raw).1.sessions = st.sessions ∧
    (entHandle cfg st loc sock clientIP now raw).1.agents = st.agents ∧
    (entHandle cfg st loc sock clientIP now raw).1.mobiles = st.mobiles ∧
    (entHandle cfg st loc sock clientIP now raw).1.nextRef = st.nextRef ∧
    (entHandle cfg st loc sock clientIP now raw).1.openSocks = st.openSocks ∧
    (entHandle cfg st loc sock clientIP now raw).1.heap =
      (match loc.connectionData with
       | none => st.heap
       | some ref => mupdate st.heap ref
           (fun cd => { cd with
              bytesTransferred := cd.bytesTransferred + raw.bytes.length })) := by
  cases hcd : loc.connectionData <;>
    simp [entHandle, hp, byteBump, hcd]

/-- Witness for `parse_failure_isolated` at a concrete unparseable frame. -/
theorem parse_failure_isolated_witness :
    (⟨[1, 2, 3], none⟩ : RawMsg).parsed = none ∧
    (entHandle cfg0 st0 ⟨some "agent", some "S", some 7⟩ 70 "ip" 5
        ⟨[1, 2, 3], none⟩).2.2 = [] ∧
    (entHandle cfg0 st0 ⟨some "agent", some "S", some 7⟩ 70 "ip" 5
        ⟨[1, 2, 3], none⟩).1.agents = st0.agents :=
  ⟨rfl,
   (parse_failure_isolated cfg0 st0 ⟨some "agent", some "S", some 7⟩ 70 "ip" 5
      ⟨[1, 2, 3], none⟩ rfl).1,
   (parse_failure_isolated cfg0 st0 ⟨some "agent", some "S", some 7⟩ 70 "ip" 5
      ⟨[1, 2, 3], none⟩ rfl).2.2.2.1⟩

/-- Bandwidth tracking only touches the heap. -/
theorem byteBump_sessions (st : EntState) (loc : EntLocal) (n : Nat) :
    (byteBump st loc n).sessions = st.sessions := by
  cases h : loc.connectionData <;> simp [byteBump, h]

theorem byteBump_agents (st : EntState) (loc : EntLocal) (n : Nat) :
    (byteBump st loc n).agents = st.agents := by
  cases h : loc.connectionData <;> simp [byteBump, h]

theorem byteBump_mobiles (st : EntState) (loc : EntLocal) (n : Nat) :
    (byteBump st loc n).mobiles = st.mobiles := by
  cases h : loc.connectionData <;> simp [byteBump, h]

theorem byteBump_nextRef (st : EntState) (loc : EntLocal) (n : Nat) :
    (byteBump st loc n).nextRef = st.nextRef := by
  cases h : loc.connectionData <;> simp [byteBump, h]

theorem byteBump_openSocks (st : EntState) (loc : EntLocal) (n : Nat) :
    (byteBump st loc n).openSocks = st.openSocks := by
  cases h : loc.connectionData <;> simp [byteBump, h]

/-- The `auth` branch on an unknown session in strict mode: reject with
`Invalid session`, nothing else changes. -/
theorem entAuth_invalid (cfg : Config) (st : EntState) (loc : EntLocal)
    (sock : Nat) (ip : String) (now : Nat) (m : Msg)
    (h1 : mhas st.sessions m.sessionId = false) (h2 : cfg.testMode = false) :
    entAuth cfg st loc sock ip now m
      = (st, { loc with sessionId := m.sessionId, clientType := m.clientType },
         [.sendCtl sock (.errorMsg "Invalid session")]) := by
  simp [entAuth, h1, h2]

/-- The `auth` branch on an expired session: reject with `Session expired`,
nothing else changes (in particular the connection is not closed and the
session is kept). -/
theorem entAuth_expired (cfg : Config) (st : EntState) (loc : EntLocal)
    (sock : Nat) (ip : String) (now : Nat) (m : Msg) (sess : SessionData)
    (hses : mget st.sessions m.sessionId = some sess)
    (hexp : now > sess.expiresAt) :
    entAuth cfg st loc sock ip now m
      = (st, { loc with sessionId := m.sessionId, clientType := m.clientType },
         [.sendCtl sock (.errorMsg "Session expired")]) := by
  have hmhas : mhas st.sessions m.sessionId = true :=
    (mhas_iff _ _).2 (by simp [hses])
  simp [entAuth, hmhas, hses, hexp]

/-- The `auth` branch on an existing, unexpired session: full success-path
characterization, for an arbitrary claimed `clientType`. -/
theorem entAuth_ok (cfg : Config) (st : EntState) (loc : EntLocal)
    (sock : Nat) (ip : String) (now : Nat) (m : Msg) (sess : SessionData)
    (hses : mget st.sessions m.sessionId = some sess)
    (hexp : ¬ now > sess.expiresAt) :
    entAuth cfg st loc sock ip now m
      = (let k := m.sessionId
         let ct := m.clientType
         let cref := st.nextRef
         let session :=
           if ct == some "agent" then { sess with agentConnected := true }
           else if ct == some "mobile" then { sess with mobileConnected := true }
           else sess
         let session := { session with expiresAt := now + cfg.sessionExpiry }
         let stH := { st with
           heap := (cref, mkConnectionData sock ct k now) :: st.heap,
           nextRef := cref + 1 }
         let stR :=
           if ct == some "agent" then { stH with agents := mset stH.agents k cref }
           else if ct == some "mobile" then
             { stH with mobiles := mset stH.mobiles k cref }
           else stH
         let stS := { stR with sessions := mset stR.sessions k session }
         (stS,
          { loc with sessionId := k, clientType := ct, connectionData := some cref },
          Effect.sendCtl sock (.authSuccessEnt k ct "2.0.0-enterprise"
              cfg.heartbeatInterval session.expiresAt)
            :: (match pairedLookup stS ct k with
                | some pref =>
                  match mget stS.heap pref with
                  | some pcd =>
                    if stS.openSocks.contains pcd.socket then
                      [Effect.sendCtl pcd.socket (.peerConnected ct (some now))]
                    else []
                  | none => []
                | none => []))) := by
  have hmhas : mhas st.sessions m.sessionId = true :=
    (mhas_iff _ _).2 (by simp [hses])
  simp [entAuth, hmhas, hses, hexp]

/-- The `auth` branch on an unknown session in test mode: the session is
auto-created, the authentication succeeds, and the created session's expiry
is `now + sessionExpiry`. -/
theorem entAuth_create_expiry (cfg : Config) (st : EntState) (loc : EntLocal)
    (sock : Nat) (ip : String) (now : Nat) (m : Msg)
    (h1 : mhas st.sessions m.sessionId = false) (h2 : cfg.testMode = true) :
    ((mget (entAuth cfg st loc sock ip now m).1.sessions m.sessionId).map
      (·.expiresAt) = some (now + cfg.sessionExpiry)) ∧
    ((entAuth cfg st loc sock ip now m).2.2.any isAuthSuccess) = true := by
  have hfresh : mget (mset st.sessions m.sessionId
      (mkSessionData m.sessionId ip now cfg)) m.sessionId
      = some (mkSessionData m.sessionId ip now cfg) := mget_mset_self _ _ _
  have hexp : ¬ now > (mkSessionData m.sessionId ip now cfg).expiresAt := by
    simp [mkSessionData]
  constructor
  · simp [entAuth, h1, h2, hfresh, hexp, mget_mset_self]
  · simp [entAuth, h1, h2, hfresh, hexp, isAuthSuccess]

/-- C1: when a second connection authenticates for a `(sessionId, role)` key
that already has a registered connection `ref1` — for either role — the
registry ends up holding exactly the freshly allocated connection
(`Map.set` replaces), only that key of that role's map changes, the other
role's map is untouched, and the forwarding target for that key (what the
opposite role's relay lookup returns) is the new connection, never the
displaced `ref1`. -/
theorem register_displaces (cfg : Config) (st : EntState) (loc : EntLocal)
    (sock : Nat) (clientIP : String) (now : Nat) (raw : RawMsg) (m : Msg)
    (sid ct : String) (sess : SessionData) (ref1 : Nat)
    (hp : raw.parsed = some m) (hm : m.type = "auth")
    (hsid : m.sessionId = some sid) (hct : m.clientType = some ct)
    (hrole : ct = "agent" ∨ ct = "mobile")
    (hsess : mget st.sessions (some sid) = some sess)
    (hexp : ¬ now > sess.expiresAt)
    (href : mget (if ct = "agent" then st.agents else st.mobiles) (some sid)
      = some ref1)
    (hwf : ref1 < st.nextRef) :
    mget (if ct = "agent"
        then (entHandle cfg st loc sock clientIP now raw).1.agents
        else (entHandle cfg st loc sock clientIP now raw).1.mobiles) (some sid)
      = some st.nextRef ∧
    ref1 ≠ st.nextRef ∧
    (∀ k, ¬ k = some sid →
      mget (if ct = "agent"
          then (entHandle cfg st loc sock clientIP now raw).1.agents
          else (entHandle cfg st loc sock clientIP now raw).1.mobiles) k
        = mget (if ct = "agent" then st.agents else st.mobiles) k) ∧
    (if ct = "agent"
      then (entHandle cfg st loc sock clientIP now raw).1.mobiles = st.mobiles
      else (entHandle cfg st loc sock clientIP now raw).1.agents = st.agents) ∧
    pairedLookup (entHandle cfg st loc sock clientIP now raw).1
        (some (if ct = "agent" then "mobile" else "agent")) (some sid)
      = some st.nextRef := by
  have hE : entHandle cfg st loc sock clientIP now raw
      = entAuth cfg (byteBump st loc raw.bytes.length) loc sock clientIP now m := by
    simp [entHandle, hp, hm]
  have hses1 : mget (byteBump st loc raw.bytes.length).sessions m.sessionId
      = some sess := by
    rw [byteBump_sessions, hsid]
    exact hsess
  have hOK := entAuth_ok cfg (byteBump st loc raw.bytes.length) loc sock
    clientIP now m sess hses1 hexp
  rcases hrole with hro | hro
  · subst hro
    have hca : (m.clientType == some "agent") = true := by simp [hct]
    rw [hE, hOK]
    refine ⟨?_, Nat.ne_of_lt hwf, ?_, ?_, ?_⟩
    · simp [hca, hsid, byteBump_agents, byteBump_nextRef, mget_mset_self]
    · intro k hk
      simp [hca, hsid, byteBump_agents, byteBump_nextRef,
        mget_mset_ne _ _ _ _ (fun h => hk h.symm)]
    · simp [hca, byteBump_mobiles]
    · simp [pairedLookup, hca, hsid, byteBump_agents, byteBump_nextRef,
        mget_mset_self]
  · subst hro
    have hca : (m.clientType == some "agent") = false := by simp [hct]
    have hcm : (m.clientType == some "mobile") = true := by simp [hct]
    rw [hE, hOK]
    refine ⟨?_, Nat.ne_of_lt hwf, ?_, ?_, ?_⟩
    · simp [hca, hcm, hsid, byteBump_mobiles, byteBump_nextRef, mget_mset_self]
    · intro k hk
      simp [hca, hcm, hsid, byteBump_mobiles, byteBump_nextRef,
        mget_mset_ne _ _ _ _ (fun h => hk h.symm)]
    · simp [hca, hcm, byteBump_agents]
    · simp [pairedLookup, hca, hcm, hsid, byteBump_mobiles, byteBump_nextRef,
        mget_mset_self]

/-- Witness for `register_displaces`, one instance per role: in `st0` the
agents entry for `"S"` (reference `7`) is displaced by a second agent and
the fresh reference `8` becomes the mobile-side forwarding target; in `st0m`
the mobiles entry for `"S"` (reference `3`) is displaced by a second mobile
and the fresh reference `8` becomes the agent-side forwarding target. -/
theorem register_displaces_witness :
    mget st0.agents (some "S") = some 7 ∧
    mget (entHandle cfg0 st0 ⟨none, none, none⟩ 99 "ip2" 50
        ⟨[1], some (authMsg (some "S") (some "agent"))⟩).1.agents (some "S")
      = some st0.nextRef ∧
    pairedLookup (entHandle cfg0 st0 ⟨none, none, none⟩ 99 "ip2" 50
        ⟨[1], some (authMsg (some "S") (some "agent"))⟩).1
        (some "mobile") (some "S") = some st0.nextRef ∧
    mget st0m.mobiles (some "S") = some 3 ∧
    mget (entHandle cfg0 st0m ⟨none, none, none⟩ 99 "ip2" 50
        ⟨[1], some (authMsg (some "S") (some "mobile"))⟩).1.mobiles (some "S")
      = some st0m.nextRef ∧
    pairedLookup (entHandle cfg0 st0m ⟨none, none, none⟩ 99 "ip2" 50
        ⟨[1], some (authMsg (some "S") (some "mobile"))⟩).1
        (some "agent") (some "S") = some st0m.nextRef := by
  have hA := register_displaces cfg0 st0 ⟨none, none, none⟩ 99 "ip2" 50
    ⟨[1], some (authMsg (some "S") (some "agent"))⟩
    (authMsg (some "S") (some "agent")) "S" "agent" sess0 7
    rfl rfl rfl rfl (Or.inl rfl) (by decide) (by decide) (by decide) (by decide)
  have hM := register_displaces cfg0 st0m ⟨none, none, none⟩ 99 "ip2" 50
    ⟨[1], some (authMsg (some "S") (some "mobile"))⟩
    (authMsg (some "S") (some "mobile")) "S" "mobile" sess0 3
    rfl rfl rfl rfl (Or.inr rfl) (by decide) (by decide) (by decide) (by decide)
  exact ⟨by decide, by simpa using hA.1, by simpa using hA.2.2.2.2,
    by decide, by simpa using hM.1, by simpa using hM.2.2.2.2⟩

/-- The bandwidth bump can change the relay target's byte counter (when the
sender and the target alias the same reference) but never its socket. -/
theorem mget_byteBump_heap (st : EntState) (loc : EntLocal) (n : Nat)
    (tref : Nat) (tcd : ConnectionData)
    (h : mget st.heap tref = some tcd) :
    ∃ tcd', mget (byteBump st loc n).heap tref = some tcd'
      ∧ tcd'.socket = tcd.socket := by
  cases hc : loc.connectionData with
  | none => exact ⟨tcd, by simp [byteBump, hc, h], rfl⟩
  | some cref =>
    by_cases he : cref = tref
    · subst he
      exact ⟨{ tcd with bytesTransferred := tcd.bytesTransferred + n },
        by simp [byteBump, hc, mget_mupdate_self, h], rfl⟩
    · exact ⟨tcd, by simp [byteBump, hc, mget_mupdate_ne _ _ _ _ he, h], rfl⟩

/-- C2: payload transparency of both relay paths.  For a parseable frame
whose `type` matches none of the reserved control values
(`pong`, `auth`, `heartbeat`, `get_devices`, `connect_device`,
`webrtc_signal`), an authenticated sender's frame is forwarded to the
counterpart's open socket as exactly the received byte sequence — the
enterprise relay (lines 459-479) and the token relay (lines 1032-1042)
both send `rawMessage` itself, unmodified. -/
theorem relay_transparent (cfg : Config) (raw : RawMsg) (m : Msg)
    (st : EntState) (loc : EntLocal) (sock : Nat) (clientIP : String)
    (now : Nat) (tref : Nat) (tcd : ConnectionData)
    (verify : String → Option Decoded) (validateInput : Msg → Bool)
    (stT : TokState) (locT : TokLocal) (sockT : Nat) (nowT : Nat) (tsock : Nat)
    (hp : raw.parsed = some m)
    (h1 : ¬ m.type = "pong") (h2 : ¬ m.type = "auth")
    (h3 : ¬ m.type = "heartbeat") (h4 : ¬ m.type = "get_devices")
    (h5 : ¬ m.type = "connect_device") (h6 : ¬ m.type = "webrtc_signal")
    (hts : truthy loc.sessionId = true) (htc : truthy loc.clientType = true)
    (htr : pairedLookup st loc.clientType loc.sessionId = some tref)
    (hcd : mget st.heap tref = some tcd)
    (hop : st.openSocks.contains tcd.socket = true)
    (hauth : locT.authenticated = true)
    (hv : locT.clientType = some "mobile" → validateInput m = true)
    (htsT : truthy locT.sessionId = true) (htcT : truthy locT.clientType = true)
    (htrT : pairedLookupTok stT locT.clientType locT.sessionId = some tsock)
    (hopT : stT.openSocks.contains tsock = true) :
    (entHandle cfg st loc sock clientIP now raw).2.2
      = [Effect.sendRaw tcd.socket raw.bytes] ∧
    (tokHandle cfg verify validateInput stT locT sockT nowT raw).2.2
      = [Effect.sendRaw tsock raw.bytes] := by
  constructor
  · have hE : entHandle cfg st loc sock clientIP now raw
        = entRelay (byteBump st loc raw.bytes.length) loc raw m := by
      simp [entHandle, hp, h1, h2]
    obtain ⟨tcd', hcd', hsock'⟩ :=
      mget_byteBump_heap st loc raw.bytes.length tref tcd hcd
    have htr' : pairedLookup (byteBump st loc raw.bytes.length) loc.clientType
        loc.sessionId = some tref := by
      simp [pairedLookup, byteBump_agents, byteBump_mobiles] at htr ⊢
      exact htr
    have hop' : (byteBump st loc raw.bytes.length).openSocks.contains
        tcd'.socket = true := by
      rw [byteBump_openSocks, hsock']; exact hop
    rw [hE]
    unfold entRelay
    rw [hts, htc]
    simp only [Bool.and_self, if_pos, htr', hcd', hop']
    simp [hsock']
  · have hmb : (locT.clientType == some "mobile" && !(validateInput m)) = false := by
      by_cases hmob : locT.clientType = some "mobile"
      · simp [hmob, hv hmob]
      · simp [hmob]
    have hmem : tsock ∈ stT.openSocks := by simpa using hopT
    simp [tokHandle, hp, h2, hauth, hmb, h3, h4, h5, h6, htsT, htcT, htrT, hmem]


/-- Witness for `relay_transparent`: a mobile sender's opaque `"x"` frame
with bytes `[5, 6, 7]` reaches the registered agent socket byte-for-byte in
both variants. -/
theorem relay_transparent_witness :
    pairedLookup st0 (some "mobile") (some "S") = some 7 ∧
    pairedLookupTok tstR (some "mobile") (some "S") = some 5 ∧
    (entHandle cfg0 st0 ⟨some "mobile", some "S", none⟩ 99 "ip" 50
        ⟨[5, 6, 7], some msg0⟩).2.2
      = [Effect.sendRaw 70 [5, 6, 7]] ∧
    (tokHandle cfg0 verify0 (fun _ => true) tstR ⟨some "mobile", some "S", true⟩
        9 50 ⟨[5, 6, 7], some msg0⟩).2.2
      = [Effect.sendRaw 5 [5, 6, 7]] := by
  have h := relay_transparent cfg0 ⟨[5, 6, 7], some msg0⟩ msg0 st0
    ⟨some "mobile", some "S", none⟩ 99 "ip" 50 7
    (mkConnectionData 70 (some "agent") (some "S") 0)
    verify0 (fun _ => true) tstR ⟨some "mobile", some "S", true⟩ 9 50 5
    rfl (by decide) (by decide) (by decide) (by decide) (by decide) (by decide)
    (by decide) (by decide) (by decide) (by decide) (by decide)
    rfl (fun _ => rfl) (by decide) (by decide) (by decide) (by decide)
  exact ⟨by decide, by decide, h.1, h.2⟩

/-- Any `auth` frame acknowledged with `auth_success` leaves the named
session with `expiresAt = now + sessionExpiry`. -/
theorem auth_success_sets_expiry (cfg : Config) (st : EntState)
    (loc : EntLocal) (sock : Nat) (ip : String) (now : Nat) (raw : RawMsg)
    (m : Msg) (k : Key)
    (hp : raw.parsed = some m) (hm : m.type = "auth") (hk : m.sessionId = k)
    (hok : ((entHandle cfg st loc sock ip now raw).2.2.any isAuthSuccess)
      = true) :
    (mget (entHandle cfg st loc sock ip now raw).1.sessions k).map
      (·.expiresAt) = some (now + cfg.sessionExpiry) := by
  subst hk
  have hE : entHandle cfg st loc sock ip now raw
      = entAuth cfg (byteBump st loc raw.bytes.length) loc sock ip now m := by
    simp [entHandle, hp, hm]
  rw [hE] at hok ⊢
  by_cases hh : mhas (byteBump st loc raw.bytes.length).sessions m.sessionId
    = true
  · obtain ⟨sess, hses⟩ : ∃ s,
        mget (byteBump st loc raw.bytes.length).sessions m.sessionId = some s := by
      cases hg : mget (byteBump st loc raw.bytes.length).sessions m.sessionId
      · rw [mhas_iff, hg] at hh
        simp at hh
      · exact ⟨_, rfl⟩
    by_cases hexp : now > sess.expiresAt
    · rw [entAuth_expired cfg _ loc sock ip now m sess hses hexp] at hok
      simp [isAuthSuccess] at hok
    · rw [entAuth_ok cfg _ loc sock ip now m sess hses hexp]
      simp [mget_mset_self]
  · have hh' : mhas (byteBump st loc raw.bytes.length).sessions m.sessionId
        = false := by
      cases h : mhas (byteBump st loc raw.bytes.length).sessions m.sessionId
      · rfl
      · exact absurd h hh
    by_cases htm : cfg.testMode = true
    · exact (entAuth_create_expiry cfg _ loc sock ip now m hh' htm).1
    · have htm' : cfg.testMode = false := by
        cases h : cfg.testMode
        · rfl
        · exact absurd h htm
      rw [entAuth_invalid cfg _ loc sock ip now m hh' htm'] at hok
      simp [isAuthSuccess] at hok

/-- C7: the enterprise `auth` branch implements sliding expiry.  Whenever an
authentication acknowledged by `auth_success` happens at time `now`, the
session named by the frame ends up with `expiresAt = now + sessionExpiry`;
consequently, across two successive successful authentications of the same
session at times `now₁ ≤ now₂` the expiry never decreases. -/
theorem sliding_expiry (cfg : Config) (st : EntState) (loc₁ loc₂ : EntLocal)
    (sock₁ sock₂ : Nat) (ip₁ ip₂ : String) (now₁ now₂ : Nat)
    (raw₁ raw₂ : RawMsg) (m₁ m₂ : Msg) (k : Key)
    (hp₁ : raw₁.parsed = some m₁) (hm₁ : m₁.type = "auth")
    (hp₂ : raw₂.parsed = some m₂) (hm₂ : m₂.type = "auth")
    (hk₁ : m₁.sessionId = k) (hk₂ : m₂.sessionId = k)
    (hmono : now₁ ≤ now₂)
    (hok₁ : ((entHandle cfg st loc₁ sock₁ ip₁ now₁ raw₁).2.2.any
      isAuthSuccess) = true)
    (hok₂ : ((entHandle cfg (entHandle cfg st loc₁ sock₁ ip₁ now₁ raw₁).1
      loc₂ sock₂ ip₂ now₂ raw₂).2.2.any isAuthSuccess) = true) :
    ((mget (entHandle cfg st loc₁ sock₁ ip₁ now₁ raw₁).1.sessions k).map
        (·.expiresAt) = some (now₁ + cfg.sessionExpiry)) ∧
    ((mget (entHandle cfg (entHandle cfg st loc₁ sock₁ ip₁ now₁ raw₁).1
        loc₂ sock₂ ip₂ now₂ raw₂).1.sessions k).map
        (·.expiresAt) = some (now₂ + cfg.sessionExpiry)) ∧
    now₁ + cfg.sessionExpiry ≤ now₂ + cfg.sessionExpiry := by
  refine ⟨?_, ?_, Nat.add_le_add_right hmono _⟩
  · exact auth_success_sets_expiry cfg st loc₁ sock₁ ip₁ now₁ raw₁ m₁ k
      hp₁ hm₁ hk₁ hok₁
  · exact auth_success_sets_expiry cfg _ loc₂ sock₂ ip₂ now₂ raw₂ m₂ k
      hp₂ hm₂ hk₂ hok₂

/-- Witness for `sliding_expiry`: session `"S"` (expiry `100`) is
authenticated at times `10` and `50`; its expiry becomes `110` then `150`. -/
theorem sliding_expiry_witness :
    ((mget (entHandle cfg0 st0 ⟨none, none, none⟩ 99 "a" 10
        ⟨[1], some (authMsg (some "S") (some "agent"))⟩).1.sessions
        (some "S")).map (·.expiresAt) = some (10 + cfg0.sessionExpiry)) ∧
    ((mget (entHandle cfg0 (entHandle cfg0 st0 ⟨none, none, none⟩ 99 "a" 10
        ⟨[1], some (authMsg (some "S") (some "agent"))⟩).1
        ⟨none, none, none⟩ 98 "b" 50
        ⟨[2], some (authMsg (some "S") (some "mobile"))⟩).1.sessions
        (some "S")).map (·.expiresAt) = some (50 + cfg0.sessionExpiry)) ∧
    10 + cfg0.sessionExpiry ≤ 50 + cfg0.sessionExpiry :=
  sliding_expiry cfg0 st0 ⟨none, none, none⟩ ⟨none, none, none⟩ 99 98 "a" "b"
    10 50 ⟨[1], some (authMsg (some "S") (some "agent"))⟩
    ⟨[2], some (authMsg (some "S") (some "mobile"))⟩
    (authMsg (some "S") (some "agent")) (authMsg (some "S") (some "mobile"))
    (some "S") rfl rfl rfl rfl rfl rfl (by decide) (by decide) (by decide)


/-- Effects of the enterprise relay branch when the counterpart is present
and open: exactly one forward of the raw bytes to the target's socket. -/
theorem entRelay_effects (st : EntState) (loc : EntLocal) (raw : RawMsg)
    (m : Msg) (tref : Nat) (tcd : ConnectionData)
    (hts : truthy loc.sessionId = true) (htc : truthy loc.clientType = true)
    (htr : pairedLookup st loc.clientType loc.sessionId = some tref)
    (hcd : mget st.heap tref = some tcd)
    (hop : st.openSocks.contains tcd.socket = true) :
    (entRelay st loc raw m).2.2 = [Effect.sendRaw tcd.socket raw.bytes] := by
  have hmem : tcd.socket ∈ st.openSocks := by simpa using hop
  unfold entRelay
  rw [hts, htc]
  simp [htr, hcd, hmem]

/-- C9: an `auth` frame for a valid, unexpired session whose `clientType` is
neither `"agent"` nor `"mobile"` is still acknowledged with `auth_success`
and still slides the session expiry, yet the connection is registered in
neither role map; and a later non-control frame from that connection is
relayed exactly as a mobile's would be — the target is looked up in the
agents map, and the registered agent's socket receives the raw bytes. -/
theorem unknown_clienttype_auth (cfg : Config) (st : EntState) (loc : EntLocal)
    (sock : Nat) (ip : String) (now : Nat) (raw : RawMsg) (m : Msg)
    (sid ct : String) (sess : SessionData)
    (sock₂ : Nat) (ip₂ : String) (now₂ : Nat) (raw₂ : RawMsg) (m₂ : Msg)
    (tref : Nat) (tcd : ConnectionData)
    (hp : raw.parsed = some m) (hm : m.type = "auth")
    (hsid : m.sessionId = some sid) (hct : m.clientType = some ct)
    (hag : ¬ ct = "agent") (hmb : ¬ ct = "mobile") (hne : ¬ ct = "")
    (hsne : ¬ sid = "")
    (hses : mget st.sessions (some sid) = some sess)
    (hexp : ¬ now > sess.expiresAt)
    (hp₂ : raw₂.parsed = some m₂) (hn₁ : ¬ m₂.type = "pong")
    (hn₂ : ¬ m₂.type = "auth")
    (htr : mget st.agents (some sid) = some tref)
    (hcd : mget st.heap tref = some tcd)
    (hwf : tref < st.nextRef)
    (hop : st.openSocks.contains tcd.socket = true) :
    ((entHandle cfg st loc sock ip now raw).2.2.any isAuthSuccess = true) ∧
    (entHandle cfg st loc sock ip now raw).1.agents = st.agents ∧
    (entHandle cfg st loc sock ip now raw).1.mobiles = st.mobiles ∧
    ((mget (entHandle cfg st loc sock ip now raw).1.sessions (some sid)).map
      (·.expiresAt) = some (now + cfg.sessionExpiry)) ∧
    (entHandle cfg st loc sock ip now raw).2.1
      = { loc with sessionId := some sid, clientType := some ct,
                   connectionData := some st.nextRef } ∧
    (entHandle cfg (entHandle cfg st loc sock ip now raw).1
        (entHandle cfg st loc sock ip now raw).2.1 sock₂ ip₂ now₂ raw₂).2.2
      = [Effect.sendRaw tcd.socket raw₂.bytes] := by
  have hE : entHandle cfg st loc sock ip now raw
      = entAuth cfg (byteBump st loc raw.bytes.length) loc sock ip now m := by
    simp [entHandle, hp, hm]
  have hses1 : mget (byteBump st loc raw.bytes.length).sessions m.sessionId
      = some sess := by
    rw [byteBump_sessions, hsid]
    exact hses
  have hA := entAuth_ok cfg (byteBump st loc raw.bytes.length) loc sock ip now
    m sess hses1 hexp
  have hca : (m.clientType == some "agent") = false := by simp [hct, hag]
  have hcm : (m.clientType == some "mobile") = false := by simp [hct, hmb]
  have hagents : (entHandle cfg st loc sock ip now raw).1.agents = st.agents := by
    rw [hE, hA]
    simp [hca, hcm, byteBump_agents]
  have hmobiles : (entHandle cfg st loc sock ip now raw).1.mobiles
      = st.mobiles := by
    rw [hE, hA]
    simp [hca, hcm, byteBump_mobiles]
  have hopen : (entHandle cfg st loc sock ip now raw).1.openSocks
      = st.openSocks := by
    rw [hE, hA]
    simp [hca, hcm, byteBump_openSocks]
  have hheap : (entHandle cfg st loc sock ip now raw).1.heap
      = (st.nextRef, mkConnectionData sock (some ct) (some sid) now)
        :: (byteBump st loc raw.bytes.length).heap := by
    rw [hE, hA]
    simp [hca, hcm, hag, hmb, hsid, hct, byteBump_nextRef]
  have hloc : (entHandle cfg st loc sock ip now raw).2.1
      = { loc with sessionId := some sid, clientType := some ct,
                   connectionData := some st.nextRef } := by
    rw [hE, hA]
    simp [hsid, hct, byteBump_nextRef]
  refine ⟨?_, hagents, hmobiles, ?_, hloc, ?_⟩
  · rw [hE, hA]
    simp [isAuthSuccess]
  · rw [hE, hA]
    simp [hsid, mget_mset_self]
  · have hE₂ : entHandle cfg (entHandle cfg st loc sock ip now raw).1
        (entHandle cfg st loc sock ip now raw).2.1 sock₂ ip₂ now₂ raw₂
        = entRelay (byteBump (entHandle cfg st loc sock ip now raw).1
            (entHandle cfg st loc sock ip now raw).2.1 raw₂.bytes.length)
            (entHandle cfg st loc sock ip now raw).2.1 raw₂ m₂ := by
      simp [entHandle, hp₂, hn₁, hn₂]
    obtain ⟨tcd', htcd', hsk⟩ :=
      mget_byteBump_heap st loc raw.bytes.length tref tcd hcd
    have hne' : ¬ st.nextRef = tref := fun h => absurd (h ▸ hwf) (Nat.lt_irrefl _)
    have hBBheap : (byteBump (entHandle cfg st loc sock ip now raw).1
        { loc with sessionId := some sid, clientType := some ct,
                   connectionData := some st.nextRef } raw₂.bytes.length).heap
        = mupdate (entHandle cfg st loc sock ip now raw).1.heap st.nextRef
            (fun cd => { cd with
              bytesTransferred := cd.bytesTransferred + raw₂.bytes.length }) :=
      rfl
    have hmem : tcd.socket ∈ st.openSocks := by simpa using hop
    rw [hE₂, ← hsk]
    apply entRelay_effects _ _ _ _ tref tcd'
    · rw [hloc]
      simp [truthy, hsne]
    · rw [hloc]
      simp [truthy, hne]
    · rw [hloc]
      simp [pairedLookup, hag, byteBump_agents, hagents, htr]
    · rw [hloc, hBBheap, mget_mupdate_ne _ _ _ _ hne', hheap, mget_cons,
        if_neg (by simp [hne'])]
      exact htcd'
    · rw [hloc]
      simp [byteBump_openSocks, hopen, hsk, hmem]

/-- Witness for `unknown_clienttype_auth`: clientType `"viewer"` on session
`"S"` of `st0` gets `auth_success`, registers nowhere, slides expiry, and its
follow-up frame is forwarded to the registered agent's socket `70`. -/
theorem unknown_clienttype_auth_witness :
    ((entHandle cfg0 st0 ⟨none, none, none⟩ 99 "ip" 50
        ⟨[1], some (authMsg (some "S") (some "viewer"))⟩).2.2.any isAuthSuccess
      = true) ∧
    (entHandle cfg0 st0 ⟨none, none, none⟩ 99 "ip" 50
        ⟨[1], some (authMsg (some "S") (some "viewer"))⟩).1.agents = st0.agents ∧
    (entHandle cfg0 st0 ⟨none, none, none⟩ 99 "ip" 50
        ⟨[1], some (authMsg (some "S") (some "viewer"))⟩).1.mobiles
      = st0.mobiles ∧
    ((mget (entHandle cfg0 st0 ⟨none, none, none⟩ 99 "ip" 50
        ⟨[1], some (authMsg (some "S") (some "viewer"))⟩).1.sessions
        (some "S")).map (·.expiresAt) = some (50 + cfg0.sessionExpiry)) ∧
    (entHandle cfg0 st0 ⟨none, none, none⟩ 99 "ip" 50
        ⟨[1], some (authMsg (some "S") (some "viewer"))⟩).2.1
      = { clientType := some "viewer", sessionId := some "S",
          connectionData := some st0.nextRef } ∧
    (entHandle cfg0 (entHandle cfg0 st0 ⟨none, none, none⟩ 99 "ip" 50
        ⟨[1], some (authMsg (some "S") (some "viewer"))⟩).1
        (entHandle cfg0 st0 ⟨none, none, none⟩ 99 "ip" 50
          ⟨[1], some (authMsg (some "S") (some "viewer"))⟩).2.1 99 "ip" 60
        ⟨[4, 2], some msg0⟩).2.2
      = [Effect.sendRaw 70 [4, 2]] :=
  unknown_clienttype_auth cfg0 st0 ⟨none, none, none⟩ 99 "ip" 50
    ⟨[1], some (authMsg (some "S") (some "viewer"))⟩
    (authMsg (some "S") (some "viewer")) "S" "viewer" sess0
    99 "ip" 60 ⟨[4, 2], some msg0⟩ msg0 7
    (mkConnectionData 70 (some "agent") (some "S") 0)
    rfl rfl rfl rfl (by decide) (by decide) (by decide) (by decide)
    (by decide) (by decide) rfl (by decide) (by decide) (by decide)
    (by decide) (by decide) (by decide)

/-- Counterexample to C4 as stated: the enterprise auth branch (lines
389-404), which the claim also cites, never reads `message.token` — the
handler does not even take a token verifier.  An `auth` frame carrying the
unverifiable token `"garbage"` against a valid unexpired session is still
answered with `auth_success`: authentication succeeds without the token
authority being consulted. -/
theorem enterprise_token_unverified_counterexample :
    ({ authMsg (some "S") (some "agent") with token := some "garbage" } : Msg).token
      = some "garbage" ∧
    ((entHandle cfg0 st0 ⟨none, none, none⟩ 99 "ip" 50
        ⟨[1], some { authMsg (some "S") (some "agent") with token := some "garbage" }⟩).2.2.any
      isAuthSuccess) = true := by
  decide

/-- C4 (amended): in the token variant, an `auth` frame carrying a (truthy)
token is gated by the token authority.  If the token does not verify, the
server replies `Invalid or expired token`; if it verifies but the decoded
`(sessionId, clientType)` differs from the claimed pair, the server replies
`Token mismatch`; in both cases the registries are untouched, the connection
stays `Unauthenticated`, and no close is issued (the reply is the only
effect).  Conversely, if the connection ends up authenticated, the token
verified and decoded exactly to the claimed pair.  The enterprise variant,
by contrast, ignores the token field entirely: an `auth` frame carrying any
token value is authenticated against a valid unexpired session with no
verification at all. -/
theorem token_auth_gate (cfg : Config) (verify : String → Option Decoded)
    (validateInput : Msg → Bool) (st : TokState) (loc : TokLocal) (sock : Nat)
    (now : Nat) (raw : RawMsg) (m : Msg) (tok : String)
    (stE : EntState) (locE : EntLocal) (sockE : Nat) (ipE : String)
    (nowE : Nat) (rawE : RawMsg) (mE : Msg) (sessE : SessionData)
    (hp : raw.parsed = some m) (hm : m.type = "auth")
    (htok : m.token = some tok) (hne : ¬ tok = "")
    (ha : loc.authenticated = false)
    (hpE : rawE.parsed = some mE) (hmE : mE.type = "auth")
    (htokE : mE.token = some tok)
    (hsesE : mget stE.sessions mE.sessionId = some sessE)
    (hexpE : ¬ nowE > sessE.expiresAt) :
    (verify tok = none →
      tokHandle cfg verify validateInput st loc sock now raw
        = (st, { loc with sessionId := m.sessionId, clientType := m.clientType },
           [.sendCtl sock (.errorMsg "Invalid or expired token")])) ∧
    (∀ d, verify tok = some d →
      ¬ (d.sessionId = m.sessionId ∧ d.clientType = m.clientType) →
      tokHandle cfg verify validateInput st loc sock now raw
        = (st, { loc with sessionId := m.sessionId, clientType := m.clientType },
           [.sendCtl sock (.errorMsg "Token mismatch")])) ∧
    ((tokHandle cfg verify validateInput st loc sock now raw).2.1.authenticated
        = true →
      ∃ d, verify tok = some d ∧ d.sessionId = m.sessionId
        ∧ d.clientType = m.clientType) ∧
    ((entHandle cfg stE locE sockE ipE nowE rawE).2.2.any isAuthSuccess)
      = true := by
  have hT : tokHandle cfg verify validateInput st loc sock now raw
      = tokAuth cfg verify st loc sock now m := by
    simp [tokHandle, hp, hm]
  refine ⟨?_, ?_, ?_, ?_⟩
  · intro hv
    rw [hT]
    simp [tokAuth, htok, hne, hv]
  · intro d hv hmm
    have hbeq : (d.sessionId == m.sessionId && d.clientType == m.clientType)
        = false := by
      by_cases h1 : d.sessionId = m.sessionId
      · have h2 : ¬ d.clientType = m.clientType := fun h2 => hmm ⟨h1, h2⟩
        simp [h1, h2]
      · simp [h1]
    rw [hT]
    simp [tokAuth, htok, hne, hv, hbeq]
  · intro hat
    rw [hT] at hat
    cases hv : verify tok with
    | none =>
      have heq : tokAuth cfg verify st loc sock now m
          = (st,
             { loc with sessionId := m.sessionId, clientType := m.clientType },
             [.sendCtl sock (.errorMsg "Invalid or expired token")]) := by
        simp [tokAuth, htok, hne, hv]
      rw [heq] at hat
      simp [ha] at hat
    | some d =>
      by_cases hmatch : d.sessionId = m.sessionId ∧ d.clientType = m.clientType
      · exact ⟨d, rfl, hmatch.1, hmatch.2⟩
      · have hbeq : (d.sessionId == m.sessionId && d.clientType == m.clientType)
            = false := by
          by_cases h1 : d.sessionId = m.sessionId
          · have h2 : ¬ d.clientType = m.clientType := fun h2 => hmatch ⟨h1, h2⟩
            simp [h1, h2]
          · simp [h1]
        have heq : tokAuth cfg verify st loc sock now m
            = (st,
               { loc with sessionId := m.sessionId, clientType := m.clientType },
               [.sendCtl sock (.errorMsg "Token mismatch")]) := by
          simp [tokAuth, htok, hne, hv, hbeq]
        rw [heq] at hat
        simp [ha] at hat
  · have hEE : entHandle cfg stE locE sockE ipE nowE rawE
        = entAuth cfg (byteBump stE locE rawE.bytes.length) locE sockE ipE
            nowE mE := by
      simp [entHandle, hpE, hmE]
    have hses1E : mget (byteBump stE locE rawE.bytes.length).sessions
        mE.sessionId = some sessE := by
      rw [byteBump_sessions]
      exact hsesE
    rw [hEE, entAuth_ok cfg _ locE sockE ipE nowE mE sessE hses1E hexpE]
    simp [isAuthSuccess]

/-- Witness for `token_auth_gate` with the concrete verifier `verify0` and
the token `"garbage"` (which `verify0` rejects): the token variant answers
`Invalid or expired token` and stays unauthenticated, while the enterprise
variant authenticates the same garbage-token frame successfully. -/
theorem token_auth_gate_witness :
    verify0 "garbage" = none ∧
    tokHandle cfg0 verify0 (fun _ => true) tst0 ⟨none, none, false⟩ 5 0
        ⟨[1], some { authMsg (some "S") (some "mobile") with token := some "garbage" }⟩
      = (tst0,
         { clientType := some "mobile", sessionId := some "S",
           authenticated := false },
         [.sendCtl 5 (.errorMsg "Invalid or expired token")]) ∧
    ((entHandle cfg0 st0 ⟨none, none, none⟩ 99 "ip" 50
        ⟨[1], some { authMsg (some "S") (some "agent") with token := some "garbage" }⟩).2.2.any
      isAuthSuccess) = true := by
  have h := token_auth_gate cfg0 verify0 (fun _ => true) tst0 ⟨none, none, false⟩
    5 0 ⟨[1], some { authMsg (some "S") (some "mobile") with token := some "garbage" }⟩
    { authMsg (some "S") (some "mobile") with token := some "garbage" } "garbage"
    st0 ⟨none, none, none⟩ 99 "ip" 50
    ⟨[1], some { authMsg (some "S") (some "agent") with token := some "garbage" }⟩
    { authMsg (some "S") (some "agent") with token := some "garbage" } sess0
    rfl rfl rfl (by decide) rfl rfl rfl rfl (by decide) (by decide)
  exact ⟨by decide, h.1 (by decide), h.2.2.2⟩

/-- Iterating `checkRateLimit` from an entry `⟨c, deadline⟩` with all request
times inside the window: the `n`-th call observes count `c + n` and the
deadline never moves. -/
theorem runRate_steady (cfg : Config) (ip : String)
    (rl : List (String × RateLimitEntry)) (c deadline : Nat) (ts : List Nat)
    (hrl : mget rl ip = some ⟨c, deadline⟩)
    (hin : ∀ t ∈ ts, ¬ t > deadline) :
    (runRate cfg ip rl ts).1
      = (List.range ts.length).map
          (fun i => decide (c + i + 1 ≤ cfg.rateLimitMax)) ∧
    mget (runRate cfg ip rl ts).2 ip = some ⟨c + ts.length, deadline⟩ := by
  induction ts generalizing rl c with
  | nil => exact ⟨rfl, by simpa using hrl⟩
  | cons t ts ih =>
    have hnt : ¬ t > deadline := hin t (List.mem_cons_self t ts)
    have hstep : checkRateLimit cfg rl ip t
        = (decide (c + 1 ≤ cfg.rateLimitMax),
           mset rl ip ⟨c + 1, deadline⟩) := by
      simp [checkRateLimit, hrl, hnt]
    have hnew : mget (mset rl ip ⟨c + 1, deadline⟩) ip
        = some ⟨c + 1, deadline⟩ := mget_mset_self _ _ _
    have hin' : ∀ u ∈ ts, ¬ u > deadline := fun u hu =>
      hin u (List.mem_cons_of_mem t hu)
    obtain ⟨ih1, ih2⟩ := ih (mset rl ip ⟨c + 1, deadline⟩) (c + 1) hnew hin'
    constructor
    · show (runRate cfg ip rl (t :: ts)).1 = _
      rw [runRate, hstep]
      simp only [ih1, List.length_cons]
      rw [List.range_succ_eq_map, List.map_cons, List.map_map]
      congr 1
      apply List.map_congr_left
      intro i _
      simp only [Function.comp, Nat.succ_eq_add_one]
      have harith : c + 1 + i + 1 = c + (i + 1) + 1 := by omega
      rw [harith]
    · show mget (runRate cfg ip rl (t :: ts)).2 ip = _
      have harith : c + 1 + ts.length = c + (ts.length + 1) := by omega
      rw [runRate, hstep]
      simp only [ih2, List.length_cons, harith]

/-- C8: with window `W = rateLimitWindow` and cap `M = rateLimitMax ≥ 1`,
starting from no entry for the IP, a first request at `t₀` followed by `M`
further requests all within the window yields `M` acceptances followed by
one rejection; and once a request arrives strictly after `t₀ + W` (the
deadline set by the first request), the counter resets and that request is
allowed again. -/
theorem rate_limit_cap_and_reset (cfg : Config) (ip : String)
    (hM : 1 ≤ cfg.rateLimitMax) (t0 : Nat) (ts : List Nat)
    (hlen : ts.length = cfg.rateLimitMax)
    (hin : ∀ t ∈ ts, ¬ t > t0 + cfg.rateLimitWindow)
    (t' : Nat) (ht' : t' > t0 + cfg.rateLimitWindow) :
    (runRate cfg ip [] (t0 :: ts)).1
      = List.replicate cfg.rateLimitMax true ++ [false] ∧
    (checkRateLimit cfg (runRate cfg ip [] (t0 :: ts)).2 ip t').1 = true := by
  have hfirst : checkRateLimit cfg [] ip t0
      = (decide (1 ≤ cfg.rateLimitMax),
         mset [] ip ⟨1, t0 + cfg.rateLimitWindow⟩) := by
    simp [checkRateLimit, mget]
  have hnew : mget (mset ([] : List (String × RateLimitEntry)) ip
      ⟨1, t0 + cfg.rateLimitWindow⟩) ip
      = some ⟨1, t0 + cfg.rateLimitWindow⟩ := mget_mset_self _ _ _
  obtain ⟨h1, h2⟩ := runRate_steady cfg ip _ 1 (t0 + cfg.rateLimitWindow) ts
    hnew hin
  obtain ⟨K, hK⟩ : ∃ K, cfg.rateLimitMax = K + 1 :=
    ⟨cfg.rateLimitMax - 1, by omega⟩
  constructor
  · rw [runRate, hfirst]
    simp only [h1, hlen]
    have hd1 : decide (1 ≤ cfg.rateLimitMax) = true := decide_eq_true hM
    rw [hd1, hK, List.range_succ, List.map_append]
    have hmapK : (List.range K).map (fun i => decide (1 + i + 1 ≤ K + 1))
        = List.replicate K true := by
      rw [List.eq_replicate_iff]
      constructor
      · simp
      · intro b hb
        rw [List.mem_map] at hb
        obtain ⟨i, hi, hbi⟩ := hb
        rw [List.mem_range] at hi
        rw [← hbi]
        simp only [decide_eq_true_eq]
        omega
    have hlast : (List.map (fun i => decide (1 + i + 1 ≤ K + 1)) [K])
        = [false] := by
      simp only [List.map_cons, List.map_nil]
      have hd : decide (1 + K + 1 ≤ K + 1) = false := by
        simp only [decide_eq_false_iff_not]
        omega
      rw [hd]
    rw [hmapK, hlast, List.replicate_succ]
    rfl
  · have hfin : mget (runRate cfg ip [] (t0 :: ts)).2 ip
        = some ⟨1 + cfg.rateLimitMax, t0 + cfg.rateLimitWindow⟩ := by
      rw [runRate, hfirst]
      simpa [hlen] using h2
    simp [checkRateLimit, hfin, ht', hM]

/-- Witness for `rate_limit_cap_and_reset` under `cfg0` (window `50`,
cap `3`): four same-instant requests from one IP give three acceptances and
a rejection; a request at time `51` is accepted again. -/
theorem rate_limit_cap_and_reset_witness :
    (runRate cfg0 "ip" [] (0 :: [0, 0, 0])).1
      = List.replicate cfg0.rateLimitMax true ++ [false] ∧
    (checkRateLimit cfg0 (runRate cfg0 "ip" [] (0 :: [0, 0, 0])).2 "ip" 51).1
      = true :=
  rate_limit_cap_and_reset cfg0 "ip" (by decide) 0 [0, 0, 0] (by decide)
    (by decide) 51 (by decide)


/-- Counterexample to C6 as stated: an `auth` frame at time `50` against
session `"S"`, expired at `10`, is rejected with `Session expired`, but the
handler emits no close — the connection is left open, contradicting "the
rejection is fatal for the current connection: the server closes that
connection". -/
theorem expired_auth_close_counterexample :
    (mget stExp.sessions (some "S")).map (·.expiresAt) = some 10 ∧
    (10 : Nat) < 50 ∧
    (entHandle cfg0 stExp ⟨none, none, none⟩ 99 "ip" 50
        ⟨[1], some (authMsg (some "S") (some "agent"))⟩).2.2
      = [Effect.sendCtl 99 (.errorMsg "Session expired")] ∧
    noClose ((entHandle cfg0 stExp ⟨none, none, none⟩ 99 "ip" 50
        ⟨[1], some (authMsg (some "S") (some "agent"))⟩).2.2) = true := by
  decide

/-- C6 (amended): an `auth` frame naming an expired session is rejected with
a `Session expired` error reply, but the rejection is not fatal — neither
variant closes the connection (the error reply is the only effect).  The
enterprise variant leaves the session store and both role registries
unchanged; the token variant additionally deletes the session, leaves the
role registries unchanged, and keeps the connection unauthenticated-as-before. -/
theorem expired_auth_rejected_not_closed (cfg : Config) (st : EntState)
    (loc : EntLocal) (sock : Nat) (ip : String) (now : Nat) (raw : RawMsg)
    (m : Msg) (sess : SessionData)
    (verify : String → Option Decoded) (validateInput : Msg → Bool)
    (stT : TokState) (locT : TokLocal) (sockT : Nat) (nowT : Nat)
    (tsess : TokSession)
    (hp : raw.parsed = some m) (hm : m.type = "auth")
    (hses : mget st.sessions m.sessionId = some sess)
    (hexp : now > sess.expiresAt)
    (htokT : m.token = none)
    (tses : mget stT.sessions m.sessionId = some tsess)
    (texp : tokExpired tsess.expiresAt nowT = true) :
    ((entHandle cfg st loc sock ip now raw).2.2
      = [.sendCtl sock (.errorMsg "Session expired")] ∧
     noClose (entHandle cfg st loc sock ip now raw).2.2 = true ∧
     (entHandle cfg st loc sock ip now raw).1.sessions = st.sessions ∧
     (entHandle cfg st loc sock ip now raw).1.agents = st.agents ∧
     (entHandle cfg st loc sock ip now raw).1.mobiles = st.mobiles) ∧
    ((tokHandle cfg verify validateInput stT locT sockT nowT raw).2.2
      = [.sendCtl sockT (.errorMsg "Session expired")] ∧
     noClose (tokHandle cfg verify validateInput stT locT sockT nowT raw).2.2
      = true ∧
     (tokHandle cfg verify validateInput stT locT sockT nowT raw).1.sessions
      = mdel stT.sessions m.sessionId ∧
     (tokHandle cfg verify validateInput stT locT sockT nowT raw).1.agents
      = stT.agents ∧
     (tokHandle cfg verify validateInput stT locT sockT nowT raw).1.mobiles
      = stT.mobiles ∧
     (tokHandle cfg verify validateInput stT locT sockT nowT raw).2.1.authenticated
      = locT.authenticated) := by
  have hses1 : mget (byteBump st loc raw.bytes.length).sessions m.sessionId
      = some sess := by
    rw [byteBump_sessions]
    exact hses
  have hE : entHandle cfg st loc sock ip now raw
      = (byteBump st loc raw.bytes.length,
         { loc with sessionId := m.sessionId, clientType := m.clientType },
         [.sendCtl sock (.errorMsg "Session expired")]) := by
    have h1 : entHandle cfg st loc sock ip now raw
        = entAuth cfg (byteBump st loc raw.bytes.length) loc sock ip now m := by
      simp [entHandle, hp, hm]
    rw [h1, entAuth_expired cfg _ loc sock ip now m sess hses1 hexp]
  have hmhasT : mhas stT.sessions m.sessionId = true :=
    (mhas_iff _ _).2 (by simp [tses])
  have hT : tokHandle cfg verify validateInput stT locT sockT nowT raw
      = ({ stT with sessions := mdel stT.sessions m.sessionId },
         { locT with sessionId := m.sessionId, clientType := m.clientType },
         [.sendCtl sockT (.errorMsg "Session expired")]) := by
    have h1 : tokHandle cfg verify validateInput stT locT sockT nowT raw
        = tokAuth cfg verify stT locT sockT nowT m := by
      simp [tokHandle, hp, hm]
    rw [h1]
    simp [tokAuth, htokT, tokAuthSession, hmhasT, tses, texp]
  constructor
  · rw [hE]
    exact ⟨rfl, rfl, byteBump_sessions st loc _, byteBump_agents st loc _,
      byteBump_mobiles st loc _⟩
  · rw [hT]
    exact ⟨rfl, rfl, rfl, rfl, rfl, rfl⟩


/-- Witness for `expired_auth_rejected_not_closed` at concrete expired
states of both variants. -/
theorem expired_auth_rejected_not_closed_witness :
    ((entHandle cfg0 stExp ⟨none, none, none⟩ 99 "ip" 50
        ⟨[1], some (authMsg (some "S") (some "agent"))⟩).2.2
      = [.sendCtl 99 (.errorMsg "Session expired")] ∧
     noClose (entHandle cfg0 stExp ⟨none, none, none⟩ 99 "ip" 50
        ⟨[1], some (authMsg (some "S") (some "agent"))⟩).2.2 = true ∧
     (entHandle cfg0 stExp ⟨none, none, none⟩ 99 "ip" 50
        ⟨[1], some (authMsg (some "S") (some "agent"))⟩).1.sessions
      = stExp.sessions ∧
     (entHandle cfg0 stExp ⟨none, none, none⟩ 99 "ip" 50
        ⟨[1], some (authMsg (some "S") (some "agent"))⟩).1.agents
      = stExp.agents ∧
     (entHandle cfg0 stExp ⟨none, none, none⟩ 99 "ip" 50
        ⟨[1], some (authMsg (some "S") (some "agent"))⟩).1.mobiles
      = stExp.mobiles) ∧
    ((tokHandle cfg0 verify0 (fun _ => true) tstExp ⟨none, none, false⟩ 5 50
        ⟨[1], some (authMsg (some "S") (some "agent"))⟩).2.2
      = [.sendCtl 5 (.errorMsg "Session expired")] ∧
     noClose (tokHandle cfg0 verify0 (fun _ => true) tstExp ⟨none, none, false⟩
        5 50 ⟨[1], some (authMsg (some "S") (some "agent"))⟩).2.2 = true ∧
     (tokHandle cfg0 verify0 (fun _ => true) tstExp ⟨none, none, false⟩ 5 50
        ⟨[1], some (authMsg (some "S") (some "agent"))⟩).1.sessions
      = mdel tstExp.sessions (authMsg (some "S") (some "agent")).sessionId ∧
     (tokHandle cfg0 verify0 (fun _ => true) tstExp ⟨none, none, false⟩ 5 50
        ⟨[1], some (authMsg (some "S") (some "agent"))⟩).1.agents
      = tstExp.agents ∧
     (tokHandle cfg0 verify0 (fun _ => true) tstExp ⟨none, none, false⟩ 5 50
        ⟨[1], some (authMsg (some "S") (some "agent"))⟩).1.mobiles
      = tstExp.mobiles ∧
     (tokHandle cfg0 verify0 (fun _ => true) tstExp ⟨none, none, false⟩ 5 50
        ⟨[1], some (authMsg (some "S") (some "agent"))⟩).2.1.authenticated
      = false) :=
  expired_auth_rejected_not_closed cfg0 stExp ⟨none, none, none⟩ 99 "ip" 50
    ⟨[1], some (authMsg (some "S") (some "agent"))⟩
    (authMsg (some "S") (some "agent")) { sess0 with expiresAt := 10 }
    verify0 (fun _ => true) tstExp ⟨none, none, false⟩ 5 50
    { id := some "S", createdAt := 0, status := "pending",
      expiresAt := some 10 }
    rfl rfl (by decide) (by decide) rfl (by decide) (by decide)

/-- Counterexample to C5 as stated: in `st0` the agents entry for session
`"S"` refers to connection `7`, but running the close handler of a *stale*
connection (`connectionData = some 1`, a connection that has since been
replaced) still deletes the entry — the registry removal is an unconditional
`Map.delete`, not conditioned on the entry still referring to the closing
connection. -/
theorem stale_close_evicts_counterexample :
    mget st0.agents (some "S") = some 7 ∧
    ¬ (7 : Nat) = 1 ∧
    mget (entClose st0 ⟨some "agent", some "S", some 1⟩ 60).1.agents (some "S")
      = none := by
  decide

/-- C5 (amended): when a connection's transport closes, the close handlers
of both variants remove the `(sessionId, role)` registry entry
unconditionally — `connections.agents.delete(sessionId)` (resp. `.mobiles`)
— regardless of whether the entry still refers to the closing connection;
in particular a stale close handler of a displaced connection does evict a
newer connection's entry. -/
theorem close_unregisters_unconditionally (st : EntState) (loc : EntLocal)
    (now : Nat) (stT : TokState) (locT : TokLocal)
    (h1 : truthy loc.sessionId = true) (h2 : truthy loc.clientType = true)
    (t1 : truthy locT.sessionId = true) (t2 : truthy locT.clientType = true) :
    (loc.clientType = some "agent" →
      mget (entClose st loc now).1.agents loc.sessionId = none) ∧
    (¬ loc.clientType = some "agent" →
      mget (entClose st loc now).1.mobiles loc.sessionId = none) ∧
    (locT.clientType = some "agent" →
      mget (tokClose stT locT).1.agents locT.sessionId = none) ∧
    (¬ locT.clientType = some "agent" →
      mget (tokClose stT locT).1.mobiles locT.sessionId = none) := by
  refine ⟨?_, ?_, ?_, ?_⟩
  · intro hag
    rw [hag] at h2
    cases hs : mget st.sessions loc.sessionId <;>
      simp [entClose, h1, h2, hag, hs, mget_mdel_self]
  · intro hnag
    cases hs : mget st.sessions loc.sessionId <;>
      simp [entClose, h1, h2, hnag, hs, mget_mdel_self]
  · intro hag
    rw [hag] at t2
    simp [tokClose, t1, t2, hag, mget_mdel_self]
  · intro hnag
    simp [tokClose, t1, t2, hnag, mget_mdel_self]

/-- Witness for `close_unregisters_unconditionally`: the stale agent close
handler on `st0` evicts the live entry `7`; a mobile close on a token state
with a registered mobile evicts that entry likewise. -/
theorem close_unregisters_unconditionally_witness :
    truthy (some "S") = true ∧
    mget (entClose st0 ⟨some "agent", some "S", some 1⟩ 60).1.agents (some "S")
      = none ∧
    mget (tokClose tstM ⟨some "mobile", some "S", true⟩).1.mobiles (some "S")
      = none := by
  have h := close_unregisters_unconditionally st0
    ⟨some "agent", some "S", some 1⟩ 60 tstM
    ⟨some "mobile", some "S", true⟩
    (by decide) (by decide) (by decide) (by decide)
  exact ⟨by decide, h.1 rfl, h.2.2.2 (by decide)⟩
